import Mathlib

/-!
Verification of `CameraBounds.js` (romain974/cesiumCameraLimiter).

The source is a single class `CameraBounds` layered on top of the Cesium
engine.  The shallow embedding below models:

* 3-D cartesian positions and heading/pitch/roll orientations as records of
  exact rationals (the JS floats are idealised as `ℚ`);
* the external engine calls (`ellipsoid.scaleToGeodeticSurface`,
  `Cesium.Cartesian3.distance`, the camera `positionCartographic` read)
  as fields of an abstract `Engine` record, since they are Cesium code,
  not code of this repository;
* the guard mutable fields (`previousCameraPosition`,
  `previousCameraOrientation`, `cameraMovementListener`) and the scene
  `preRender` listener list as an explicit `GuardState` record, with each
  method of the class an explicit state-passing function;
* `dispatchEvent` of a `cameraBlocked` event as appending the string
  `"cameraBlocked"` to an event log in the state.

Longitude and latitude are carried in degrees: the source reads radians
from the engine and immediately converts with `Cesium.Math.toDegrees`
(an engine-supplied linear bijection), so the model works directly in the
degree space in which all comparisons of the source happen.
-/

namespace CameraBounds

/-- A 3-D cartesian coordinate (Cesium `Cartesian3`), with exact rational
components. -/
structure Cartesian3 where
  x : ℚ
  y : ℚ
  z : ℚ
deriving DecidableEq, Repr

/-- A heading/pitch/roll orientation, as stored by the source in
`previousCameraOrientation`. -/
structure Orientation where
  heading : ℚ
  pitch : ℚ
  roll : ℚ
deriving DecidableEq, Repr

/-- A geodetic (cartographic) coordinate as read from
`camera.positionCartographic`, with longitude and latitude already
converted to degrees (`Cesium.Math.toDegrees`). -/
structure Cartographic where
  lonDeg : ℚ
  latDeg : ℚ
  height : ℚ
deriving DecidableEq, Repr

/-- The camera pose the guard reads and writes: world position plus
heading/pitch/roll. -/
structure Camera where
  position : Cartesian3
  heading : ℚ
  pitch : ℚ
  roll : ℚ
deriving DecidableEq, Repr

/-- The external Cesium primitives the source calls.  These are engine
code, not code of this repository, so they are abstract parameters:
`scaleToGeodeticSurface` projects a point onto the reference ellipsoid
surface, `distance` is `Cesium.Cartesian3.distance` between two points,
`cartographic` is the geodetic read behind `camera.positionCartographic`
(in degrees, see the file header), and `setViewDefaultPitch` is the pitch
constant `-CesiumMath.PI_OVER_TWO` that `Camera.setView` substitutes when
no orientation is supplied — an irrational angle, hence kept as an
abstract engine constant in the rational idealisation (the heading and
roll defaults are exactly 0 and are modelled exactly). -/
structure Engine where
  scaleToGeodeticSurface : Cartesian3 → Cartesian3
  distance : Cartesian3 → Cartesian3 → ℚ
  cartographic : Cartesian3 → Cartographic
  setViewDefaultPitch : ℚ

/-- The target of a distance constraint.  The source branches on
`"primitive" in entity`, reading `entity.primitive.position` in one case
and `entity.position.getValue()` in the other; both branches yield a
cartesian position. -/
inductive Entity where
  | primitive (position : Cartesian3)
  | plain (position : Cartesian3)
deriving DecidableEq, Repr

/-- The position read of `testCameraDistanceFromEntity` lines 35-41:
`entity.primitive.position` for a primitive, `entity.position.getValue()`
otherwise. -/
def entityPositionOf : Entity → Cartesian3
  | .primitive p => p
  | .plain p => p

/-- The `[distanceTestFunction, parameters]` pair stored by `limitCamera`:
either `testCameraBBOX` with its five numbers (`limitBBOX`) or
`testCameraDistanceFromEntity` with entity, distance and height
(`limitEntity`). -/
inductive ConstraintParams where
  | bbox (xmin ymin xmax ymax zmax : ℚ)
  | entity (e : Entity) (distance z : ℚ)
deriving DecidableEq, Repr

/-- The mutable state of one `CameraBounds` guard together with the scene
pieces it touches: the camera, the stored handle `cameraMovementListener`
(the id of the listener its remove-closure removes), the stored last-valid
pose, the scene `preRender` listener list (id, constraint), a fresh-id
counter, and the log of dispatched events. -/
structure GuardState where
  camera : Camera
  cameraMovementListener : Option Nat
  previousCameraPosition : Option Cartesian3
  previousCameraOrientation : Option Orientation
  sceneListeners : List (Nat × ConstraintParams)
  nextListenerId : Nat
  events : List String
deriving DecidableEq, Repr

/-- The `init` method lines 20-25: no listener, both stored-pose fields
null. -/
def init (cam : Camera) : GuardState :=
  { camera := cam
    cameraMovementListener := none
    previousCameraPosition := none
    previousCameraOrientation := none
    sceneListeners := []
    nextListenerId := 0
    events := [] }

/-- The method `testCameraDistanceFromEntity` lines 34-63: read the entity
position, project camera and entity onto the geodetic surface, take the
engine distance between the projections and the own cartographic camera
height, and report `distCamera > distance || cameraHeight > z`. -/
def testCameraDistanceFromEntity (eng : Engine) (cam : Camera)
    (entity : Entity) (distance z : ℚ) : Bool :=
  let entityPosition := entityPositionOf entity
  let cameraPosition := cam.position
  let cameraPositionOnEllipsoid := eng.scaleToGeodeticSurface cameraPosition
  let entityPositionOnEllipsoid := eng.scaleToGeodeticSurface entityPosition
  let distCamera := eng.distance cameraPositionOnEllipsoid entityPositionOnEllipsoid
  let cameraHeight := (eng.cartographic cameraPosition).height
  decide (distCamera > distance) || decide (cameraHeight > z)

/-- The method `testCameraBBOX` lines 74-85: read the cartographic camera
coordinates and report
`!(lon >= xmin && lon <= xmax && lat >= ymin && lat <= ymax && z <= zmax)`. -/
def testCameraBBOX (eng : Engine) (cam : Camera)
    (xmin ymin xmax ymax zmax : ℚ) : Bool :=
  let cameraPosition := eng.cartographic cam.position
  let lon := cameraPosition.lonDeg
  let lat := cameraPosition.latDeg
  let z := cameraPosition.height
  !(decide (lon ≥ xmin) && decide (lon ≤ xmax) && decide (lat ≥ ymin) &&
    decide (lat ≤ ymax) && decide (z ≤ zmax))

/-- The `distanceTestFunction.apply(this, parameters)` call of line 121:
dispatch on which test function and parameter list were stored. -/
def evalConstraint (eng : Engine) (cam : Camera) : ConstraintParams → Bool
  | .bbox xmin ymin xmax ymax zmax => testCameraBBOX eng cam xmin ymin xmax ymax zmax
  | .entity e distance z => testCameraDistanceFromEntity eng cam e distance z

/-- The engine call `camera.setView({destination, orientation})` of lines
122-125, modelled with the documented Cesium null/undefined defaulting
(`defaultValue`): a null destination defaults to the current position,
while a null orientation defaults componentwise to heading 0, pitch
`-CesiumMath.PI_OVER_TWO` (the abstract `setViewDefaultPitch` engine
constant) and roll 0 — the top-down snap.  This is the one external write
the source performs. -/
def setView (eng : Engine) (cam : Camera) (destination : Option Cartesian3)
    (orientation : Option Orientation) : Camera :=
  { position := destination.getD cam.position
    heading := (orientation.map Orientation.heading).getD 0
    pitch := (orientation.map Orientation.pitch).getD eng.setViewDefaultPitch
    roll := (orientation.map Orientation.roll).getD 0 }

/-- The per-frame closure `checkCameraPosition` of lines 119-136: if the
stored test reports a violation, set the camera view to the stored pose
and dispatch `cameraBlocked`; otherwise store a clone of the current
position and a fresh `{heading, pitch, roll}` object. -/
def checkCameraPosition (eng : Engine) (c : ConstraintParams)
    (s : GuardState) : GuardState :=
  if evalConstraint eng s.camera c then
    { s with
      camera := setView eng s.camera s.previousCameraPosition s.previousCameraOrientation
      events := s.events ++ ["cameraBlocked"] }
  else
    { s with
      previousCameraPosition := some s.camera.position
      previousCameraOrientation :=
        some { heading := s.camera.heading
               pitch := s.camera.pitch
               roll := s.camera.roll } }

/-- One `preRender` tick of the scene: every registered listener runs in
registration order (here each listener is a `checkCameraPosition` closure
over its stored constraint). -/
def preRenderFrame (eng : Engine) (s : GuardState) : GuardState :=
  s.sceneListeners.foldl (fun st p => checkCameraPosition eng p.2 st) s

/-- The method `disableCameraMovementLimitation` lines 145-150: if the
stored handle is defined, invoke it (removing that listener from the
scene) and clear the handle; otherwise do nothing. -/
def disableCameraMovementLimitation (s : GuardState) : GuardState :=
  match s.cameraMovementListener with
  | some i =>
      { s with
        sceneListeners := s.sceneListeners.filter (fun p => p.1 != i)
        cameraMovementListener := none }
  | none => s

/-- The method `limitCamera` lines 114-140: first disable any previous
limitation, then register a fresh `checkCameraPosition` listener on the
scene `preRender` event and store its removal handle. -/
def limitCamera (c : ConstraintParams) (s : GuardState) : GuardState :=
  let s1 := disableCameraMovementLimitation s
  { s1 with
    sceneListeners := s1.sceneListeners ++ [(s1.nextListenerId, c)]
    cameraMovementListener := some s1.nextListenerId
    nextListenerId := s1.nextListenerId + 1 }

/-- The method `limitBBOX` lines 95-97: delegate to `limitCamera` with
`testCameraBBOX` and the five numbers, with no validation of its own. -/
def limitBBOX (xmin ymin xmax ymax zmax : ℚ) (s : GuardState) : GuardState :=
  limitCamera (.bbox xmin ymin xmax ymax zmax) s

/-- The method `limitEntity` lines 105-107: delegate to `limitCamera` with
`testCameraDistanceFromEntity` and its three parameters, with no
validation of its own. -/
def limitEntity (e : Entity) (distance z : ℚ) (s : GuardState) : GuardState :=
  limitCamera (.entity e distance z) s

/-- External camera motion between frames (the host or user moving the
camera); it touches nothing of the stored guard state. -/
def moveCamera (cam : Camera) (s : GuardState) : GuardState :=
  { s with camera := cam }

/-- A concrete test engine used by witnesses and counterexamples:
coordinates are read off componentwise, surface projection zeroes the
third component, and distance is the discrete metric. -/
def engTest : Engine :=
  { scaleToGeodeticSurface := fun p => ⟨p.x, p.y, 0⟩
    distance := fun a b => if a = b then 0 else 1
    cartographic := fun p => ⟨p.x, p.y, p.z⟩
    setViewDefaultPitch := -2 }

/-- When the scene holds exactly one listener, a frame tick is exactly one
run of the `checkCameraPosition` of that listener. -/
theorem preRenderFrame_single (eng : Engine) (i : Nat) (c : ConstraintParams)
    (s : GuardState) (hs : s.sceneListeners = [(i, c)]) :
    preRenderFrame eng s = checkCameraPosition eng c s := by
  simp [preRenderFrame, hs]

/-- In-bounds characterisation of `testCameraBBOX`, shared helper. -/
theorem testCameraBBOX_eq_false_iff (eng : Engine) (cam : Camera)
    (xmin ymin xmax ymax zmax : ℚ) :
    testCameraBBOX eng cam xmin ymin xmax ymax zmax = false ↔
      (xmin ≤ (eng.cartographic cam.position).lonDeg ∧
       (eng.cartographic cam.position).lonDeg ≤ xmax ∧
       ymin ≤ (eng.cartographic cam.position).latDeg ∧
       (eng.cartographic cam.position).latDeg ≤ ymax ∧
       (eng.cartographic cam.position).height ≤ zmax) := by
  simp [testCameraBBOX, and_assoc]

/-- C2: the bounding-box predicate reports in bounds exactly when the
camera longitude lies in [xmin, xmax], its latitude in [ymin, ymax]
(degrees, closed intervals) and its height is at most zmax; any pose
outside one of those bounds is reported out of bounds. -/
theorem testCameraBBOX_in_bounds_iff (eng : Engine) (cam : Camera)
    (xmin ymin xmax ymax zmax : ℚ) :
    testCameraBBOX eng cam xmin ymin xmax ymax zmax = false ↔
      (xmin ≤ (eng.cartographic cam.position).lonDeg ∧
       (eng.cartographic cam.position).lonDeg ≤ xmax ∧
       ymin ≤ (eng.cartographic cam.position).latDeg ∧
       (eng.cartographic cam.position).latDeg ≤ ymax ∧
       (eng.cartographic cam.position).height ≤ zmax) :=
  testCameraBBOX_eq_false_iff eng cam xmin ymin xmax ymax zmax

/-- C3: the entity-distance predicate reports out of bounds exactly when
the engine distance between the surface projections of the camera and
entity positions exceeds the maximum distance, or the own cartographic
camera height exceeds the maximum height; either violation alone
suffices. -/
theorem testCameraDistanceFromEntity_iff (eng : Engine) (cam : Camera)
    (e : Entity) (distance z : ℚ) :
    testCameraDistanceFromEntity eng cam e distance z = true ↔
      (eng.distance (eng.scaleToGeodeticSurface cam.position)
          (eng.scaleToGeodeticSurface (entityPositionOf e)) > distance ∨
       (eng.cartographic cam.position).height > z) := by
  simp [testCameraDistanceFromEntity]
/-- A camera at longitude 5, outside the test box [0,1]x[0,1]. -/
def camTest : Camera := ⟨⟨5, 0, 0⟩, 9, 8, 7⟩

/-- A camera inside the test box [0,1]x[0,1] below height 100. -/
def camIn : Camera := ⟨⟨1, 1, 50⟩, 1, 2, 3⟩

/-- The test box constraint over [0,1]x[0,1] with height cap 100. -/
def cBox : ConstraintParams := .bbox 0 0 1 1 100

/-- A guard state with an active box constraint, a stored last-valid
pose, and a camera outside the box. -/
def st1 : GuardState :=
  { camera := camTest
    cameraMovementListener := some 0
    previousCameraPosition := some ⟨0, 0, 0⟩
    previousCameraOrientation := some ⟨1, 2, 3⟩
    sceneListeners := [(0, cBox)]
    nextListenerId := 1
    events := [] }

/-- The state `st1` with the camera moved inside the box. -/
def st4 : GuardState := { st1 with camera := camIn }

/-- The state `st1` with no last-valid pose stored yet. -/
def st6 : GuardState :=
  { st1 with previousCameraPosition := none, previousCameraOrientation := none }

/-- A guard state after a release: no listener, but a stale stored pose
differing from the current camera pose. -/
def st7base : GuardState :=
  { camera := camTest
    cameraMovementListener := none
    previousCameraPosition := some ⟨0, 0, 0⟩
    previousCameraOrientation := some ⟨0, 0, 0⟩
    sceneListeners := []
    nextListenerId := 3
    events := [] }

/-- C1: on a frame check with one active constraint whose predicate
reports a violation and a non-null stored pose, the camera position and
orientation are set exactly to the stored pose, exactly one
`cameraBlocked` event is dispatched during the check, and the stored pose
is left unchanged. -/
theorem frame_violation_reverts_exactly (eng : Engine) (i : Nat)
    (c : ConstraintParams) (s : GuardState) (p0 : Cartesian3) (o0 : Orientation)
    (hs : s.sceneListeners = [(i, c)])
    (hp : s.previousCameraPosition = some p0)
    (ho : s.previousCameraOrientation = some o0)
    (hviol : evalConstraint eng s.camera c = true) :
    (preRenderFrame eng s).camera.position = p0 ∧
    (preRenderFrame eng s).camera.heading = o0.heading ∧
    (preRenderFrame eng s).camera.pitch = o0.pitch ∧
    (preRenderFrame eng s).camera.roll = o0.roll ∧
    (preRenderFrame eng s).events = s.events ++ ["cameraBlocked"] ∧
    (preRenderFrame eng s).previousCameraPosition = some p0 ∧
    (preRenderFrame eng s).previousCameraOrientation = some o0 := by
  rw [preRenderFrame_single eng i c s hs]
  simp [checkCameraPosition, hviol, setView, hp, ho]

/-- Witness for C1 at the concrete state `st1` with the test engine. -/
theorem frame_violation_reverts_exactly_witness :
    st1.sceneListeners = [(0, cBox)] ∧
    st1.previousCameraPosition = some ⟨0, 0, 0⟩ ∧
    st1.previousCameraOrientation = some ⟨1, 2, 3⟩ ∧
    evalConstraint engTest st1.camera cBox = true ∧
    ((preRenderFrame engTest st1).camera.position = (⟨0, 0, 0⟩ : Cartesian3) ∧
     (preRenderFrame engTest st1).events = st1.events ++ ["cameraBlocked"] ∧
     (preRenderFrame engTest st1).previousCameraPosition = some ⟨0, 0, 0⟩) := by
  have h := frame_violation_reverts_exactly engTest 0 cBox st1 ⟨0, 0, 0⟩ ⟨1, 2, 3⟩
    rfl rfl rfl (by decide)
  exact ⟨rfl, rfl, rfl, by decide, h.1, h.2.2.2.2.1, h.2.2.2.2.2.1⟩
/-- C4: on a frame check where the active predicate reports in bounds for
the current pose, the stored last-valid pose becomes a value copy of that
pose (later camera motion leaves it untouched), the camera itself is
unchanged, and no `cameraBlocked` event is dispatched. -/
theorem frame_in_bounds_records (eng : Engine) (i : Nat)
    (c : ConstraintParams) (s : GuardState) (cam2 : Camera)
    (hs : s.sceneListeners = [(i, c)])
    (hok : evalConstraint eng s.camera c = false) :
    (preRenderFrame eng s).previousCameraPosition = some s.camera.position ∧
    (preRenderFrame eng s).previousCameraOrientation =
      some ⟨s.camera.heading, s.camera.pitch, s.camera.roll⟩ ∧
    (preRenderFrame eng s).camera = s.camera ∧
    (preRenderFrame eng s).events = s.events ∧
    (moveCamera cam2 (preRenderFrame eng s)).previousCameraPosition =
      some s.camera.position ∧
    (moveCamera cam2 (preRenderFrame eng s)).previousCameraOrientation =
      some ⟨s.camera.heading, s.camera.pitch, s.camera.roll⟩ := by
  rw [preRenderFrame_single eng i c s hs]
  simp [checkCameraPosition, hok, moveCamera]

/-- Witness for C4 at the concrete in-bounds state `st4`, moving the
camera afterwards to `camTest`. -/
theorem frame_in_bounds_records_witness :
    st4.sceneListeners = [(0, cBox)] ∧
    evalConstraint engTest st4.camera cBox = false ∧
    ((preRenderFrame engTest st4).previousCameraPosition = some camIn.position ∧
     (preRenderFrame engTest st4).camera = st4.camera ∧
     (preRenderFrame engTest st4).events = st4.events ∧
     (moveCamera camTest (preRenderFrame engTest st4)).previousCameraPosition =
       some camIn.position) := by
  have h := frame_in_bounds_records engTest 0 cBox st4 camTest rfl (by decide)
  exact ⟨rfl, by decide, h.1, h.2.2.1, h.2.2.2.1, h.2.2.2.2.1⟩
/-- A frame check never touches the scene listener list or the stored
handle, shared helper. -/
theorem checkCameraPosition_preserves_listeners (eng : Engine)
    (c : ConstraintParams) (s : GuardState) :
    (checkCameraPosition eng c s).sceneListeners = s.sceneListeners ∧
    (checkCameraPosition eng c s).cameraMovementListener =
      s.cameraMovementListener := by
  unfold checkCameraPosition
  split <;> exact ⟨rfl, rfl⟩

/-- Folding frame checks over any listener list never touches the scene
listener list or the stored handle, shared helper. -/
theorem foldl_check_preserves_listeners (eng : Engine)
    (l : List (Nat × ConstraintParams)) (s : GuardState) :
    (l.foldl (fun st p => checkCameraPosition eng p.2 st) s).sceneListeners =
      s.sceneListeners ∧
    (l.foldl (fun st p => checkCameraPosition eng p.2 st)
        s).cameraMovementListener = s.cameraMovementListener := by
  induction l generalizing s with
  | nil => exact ⟨rfl, rfl⟩
  | cons a t ih =>
      have h := checkCameraPosition_preserves_listeners eng a.2 s
      have h2 := ih (checkCameraPosition eng a.2 s)
      exact ⟨h2.1.trans h.1, h2.2.trans h.2⟩

/-- A whole frame tick never touches the scene listener list or the
stored handle, shared helper. -/
theorem preRenderFrame_preserves_listeners (eng : Engine) (s : GuardState) :
    (preRenderFrame eng s).sceneListeners = s.sceneListeners ∧
    (preRenderFrame eng s).cameraMovementListener =
      s.cameraMovementListener :=
  foldl_check_preserves_listeners eng s.sceneListeners s
/-- C5: installing a new constraint while another is active first removes
the old listener, so the scene afterwards holds exactly the new listener,
the handle points at it, and a subsequent frame evaluates exactly the new
constraint; the old callback never runs again. -/
theorem limitCamera_replaces_active (eng : Engine) (cA cB : ConstraintParams)
    (i : Nat) (s : GuardState)
    (hh : s.cameraMovementListener = some i)
    (hl : s.sceneListeners = [(i, cA)]) :
    (limitCamera cB s).sceneListeners = [(s.nextListenerId, cB)] ∧
    (limitCamera cB s).cameraMovementListener = some s.nextListenerId ∧
    preRenderFrame eng (limitCamera cB s) =
      checkCameraPosition eng cB (limitCamera cB s) ∧
    (preRenderFrame eng (limitCamera cB s)).sceneListeners =
      [(s.nextListenerId, cB)] := by
  have h1 : (limitCamera cB s).sceneListeners = [(s.nextListenerId, cB)] := by
    simp [limitCamera, disableCameraMovementLimitation, hh, hl]
  have h2 : (limitCamera cB s).cameraMovementListener =
      some s.nextListenerId := by
    simp [limitCamera, disableCameraMovementLimitation, hh]
  have h3 := preRenderFrame_single eng s.nextListenerId cB _ h1
  exact ⟨h1, h2, h3,
    ((preRenderFrame_preserves_listeners eng (limitCamera cB s)).1).trans h1⟩

/-- The entity-distance constraint used by the replacement witness. -/
def cEnt : ConstraintParams := .entity (.plain ⟨0, 0, 0⟩) 500 100

/-- Witness for C5: replacing the active box constraint of `st1` with an
entity constraint leaves exactly the new listener. -/
theorem limitCamera_replaces_active_witness :
    st1.cameraMovementListener = some 0 ∧
    st1.sceneListeners = [(0, cBox)] ∧
    ((limitCamera cEnt st1).sceneListeners = [(1, cEnt)] ∧
     (limitCamera cEnt st1).cameraMovementListener = some 1 ∧
     preRenderFrame engTest (limitCamera cEnt st1) =
       checkCameraPosition engTest cEnt (limitCamera cEnt st1)) := by
  have h := limitCamera_replaces_active engTest cBox cEnt 0 st1 rfl rfl
  exact ⟨rfl, rfl, h.1, h.2.1, h.2.2.1⟩

/-- C10: a frame check never touches the stored handle, the scene
listeners or the id counter; the stored pose fields change only in the
in-bounds record step and the camera and event log change only in the
revert step, so evaluating the predicates themselves (both are plain
boolean functions of the camera read) mutates nothing. -/
theorem check_mutation_profile (eng : Engine) (c : ConstraintParams)
    (s : GuardState) :
    (checkCameraPosition eng c s).cameraMovementListener =
      s.cameraMovementListener ∧
    (checkCameraPosition eng c s).sceneListeners = s.sceneListeners ∧
    (checkCameraPosition eng c s).nextListenerId = s.nextListenerId ∧
    (evalConstraint eng s.camera c = true →
      (checkCameraPosition eng c s).previousCameraPosition =
        s.previousCameraPosition ∧
      (checkCameraPosition eng c s).previousCameraOrientation =
        s.previousCameraOrientation) ∧
    (evalConstraint eng s.camera c = false →
      (checkCameraPosition eng c s).camera = s.camera ∧
      (checkCameraPosition eng c s).events = s.events) := by
  unfold checkCameraPosition
  rcases h : evalConstraint eng s.camera c <;> simp [h]

/-- Witness for C10 at the violating state `st1`. -/
theorem check_mutation_profile_witness :
    (checkCameraPosition engTest cBox st1).cameraMovementListener =
      st1.cameraMovementListener ∧
    (checkCameraPosition engTest cBox st1).previousCameraPosition =
      st1.previousCameraPosition := by
  have h := check_mutation_profile engTest cBox st1
  exact ⟨h.1, (h.2.2.2.1 (by decide)).1⟩
/-- C6 counterexample: at the concrete state `st6` the active predicate
reports a violation while no last-valid pose is stored, yet after the
frame check the stored pose is still null — it is not seeded from the
current camera pose — and a `cameraBlocked` event was dispatched. -/
theorem nullPose_violation_not_seeded :
    evalConstraint engTest st6.camera cBox = true ∧
    st6.previousCameraPosition = none ∧
    (preRenderFrame engTest st6).previousCameraPosition = none ∧
    (preRenderFrame engTest st6).previousCameraPosition ≠
      some st6.camera.position ∧
    (preRenderFrame engTest st6).events = ["cameraBlocked"] := by
  exact ⟨by decide, rfl, by decide, by decide, by decide⟩

/-- C6 amended: on a violation with a null stored pose the code still
takes the revert branch: `setView` is called with the null stored pose,
so the camera keeps its position (null destination defaults to the
current position) but its orientation is snapped to the engine default
(heading 0, pitch `-CesiumMath.PI_OVER_TWO`, roll 0); a `cameraBlocked`
event is dispatched, and the stored pose stays null rather than being
seeded from the current pose. -/
theorem frame_violation_null_pose (eng : Engine) (i : Nat)
    (c : ConstraintParams) (s : GuardState)
    (hs : s.sceneListeners = [(i, c)])
    (hp : s.previousCameraPosition = none)
    (ho : s.previousCameraOrientation = none)
    (hviol : evalConstraint eng s.camera c = true) :
    (preRenderFrame eng s).camera.position = s.camera.position ∧
    (preRenderFrame eng s).camera.heading = 0 ∧
    (preRenderFrame eng s).camera.pitch = eng.setViewDefaultPitch ∧
    (preRenderFrame eng s).camera.roll = 0 ∧
    (preRenderFrame eng s).previousCameraPosition = none ∧
    (preRenderFrame eng s).previousCameraOrientation = none ∧
    (preRenderFrame eng s).events = s.events ++ ["cameraBlocked"] := by
  rw [preRenderFrame_single eng i c s hs]
  simp [checkCameraPosition, hviol, setView, hp, ho]

/-- Witness for the amended C6 at the concrete state `st6`. -/
theorem frame_violation_null_pose_witness :
    st6.sceneListeners = [(0, cBox)] ∧
    st6.previousCameraPosition = none ∧
    st6.previousCameraOrientation = none ∧
    evalConstraint engTest st6.camera cBox = true ∧
    ((preRenderFrame engTest st6).camera.position = st6.camera.position ∧
     (preRenderFrame engTest st6).camera.pitch = engTest.setViewDefaultPitch ∧
     (preRenderFrame engTest st6).events = st6.events ++ ["cameraBlocked"]) := by
  have h := frame_violation_null_pose engTest 0 cBox st6 rfl rfl rfl (by decide)
  exact ⟨rfl, rfl, rfl, by decide, h.1, h.2.2.1, h.2.2.2.2.2.2⟩
/-- Releasing touches only the listener bookkeeping, shared helper. -/
theorem disable_preserves_core (s : GuardState) :
    (disableCameraMovementLimitation s).camera = s.camera ∧
    (disableCameraMovementLimitation s).previousCameraPosition =
      s.previousCameraPosition ∧
    (disableCameraMovementLimitation s).previousCameraOrientation =
      s.previousCameraOrientation ∧
    (disableCameraMovementLimitation s).events = s.events ∧
    (disableCameraMovementLimitation s).nextListenerId = s.nextListenerId := by
  cases h : s.cameraMovementListener <;>
    simp [disableCameraMovementLimitation, h]

/-- Installing a constraint touches only the listener bookkeeping, shared
helper. -/
theorem limitCamera_preserves_core (c : ConstraintParams) (s : GuardState) :
    (limitCamera c s).camera = s.camera ∧
    (limitCamera c s).previousCameraPosition = s.previousCameraPosition ∧
    (limitCamera c s).previousCameraOrientation =
      s.previousCameraOrientation ∧
    (limitCamera c s).events = s.events := by
  have h := disable_preserves_core s
  simp only [limitCamera]
  exact ⟨h.1, h.2.1, h.2.2.1, h.2.2.2.1⟩

/-- C7 counterexample: installing a box constraint on the concrete state
`st7base` (stale stored pose, camera violating the new box) makes the very
first frame check revert the camera to the stale pose and dispatch
`cameraBlocked`, instead of passing as valid and seeding the stored pose
from the current pose. -/
theorem first_frame_after_install_blocks :
    (preRenderFrame engTest (limitBBOX 0 0 1 1 100 st7base)).events =
      ["cameraBlocked"] ∧
    (preRenderFrame engTest (limitBBOX 0 0 1 1 100 st7base)).camera.position ≠
      (limitBBOX 0 0 1 1 100 st7base).camera.position ∧
    (preRenderFrame engTest
        (limitBBOX 0 0 1 1 100 st7base)).previousCameraPosition ≠
      some (limitBBOX 0 0 1 1 100 st7base).camera.position := by
  exact ⟨by decide, by decide, by decide⟩

/-- C7 amended: the first frame check after installing a constraint is an
ordinary check with no special casing: it passes and seeds the stored pose
exactly when the current pose satisfies the new predicate, and otherwise
dispatches `cameraBlocked` and leaves the stored pose as it was. -/
theorem first_frame_after_install_is_ordinary (eng : Engine)
    (c : ConstraintParams) (s : GuardState)
    (hclean : (disableCameraMovementLimitation s).sceneListeners = []) :
    (evalConstraint eng s.camera c = false →
       (preRenderFrame eng (limitCamera c s)).previousCameraPosition =
         some s.camera.position ∧
       (preRenderFrame eng (limitCamera c s)).events = s.events) ∧
    (evalConstraint eng s.camera c = true →
       (preRenderFrame eng (limitCamera c s)).events =
         s.events ++ ["cameraBlocked"] ∧
       (preRenderFrame eng (limitCamera c s)).previousCameraPosition =
         s.previousCameraPosition) := by
  have hcore := limitCamera_preserves_core c s
  have h1 : (limitCamera c s).sceneListeners =
      [((disableCameraMovementLimitation s).nextListenerId, c)] := by
    simp [limitCamera, hclean]
  rw [preRenderFrame_single eng _ c _ h1]
  constructor
  · intro hok
    have hok2 : evalConstraint eng (limitCamera c s).camera c = false := by
      rw [hcore.1]; exact hok
    simp [checkCameraPosition, hok, hok2, hcore.1, hcore.2.2.2]
  · intro hviol
    have hviol2 : evalConstraint eng (limitCamera c s).camera c = true := by
      rw [hcore.1]; exact hviol
    simp [checkCameraPosition, hviol, hviol2, hcore.2.1, hcore.2.2.2]

/-- Witness for the amended C7 at the concrete state `st7base` with the
violating box constraint. -/
theorem first_frame_after_install_is_ordinary_witness :
    (disableCameraMovementLimitation st7base).sceneListeners = [] ∧
    evalConstraint engTest st7base.camera cBox = true ∧
    ((preRenderFrame engTest (limitCamera cBox st7base)).events =
       st7base.events ++ ["cameraBlocked"] ∧
     (preRenderFrame engTest (limitCamera cBox st7base)).previousCameraPosition =
       st7base.previousCameraPosition) := by
  have h :=
    (first_frame_after_install_is_ordinary engTest cBox st7base rfl).2 (by decide)
  exact ⟨rfl, by decide, h.1, h.2⟩
/-- C8 counterexample: calling `limitBBOX` with the malformed box
xmin = 1 > xmax = 0 does not fail; it installs the constraint (handle set,
listener registered) with no precondition check. -/
theorem limitBBOX_accepts_malformed_box :
    (limitBBOX 1 0 0 1 100 (init camTest)).cameraMovementListener = some 0 ∧
    (limitBBOX 1 0 0 1 100 (init camTest)).sceneListeners =
      [(0, ConstraintParams.bbox 1 0 0 1 100)] := by
  exact ⟨by decide, by decide⟩

/-- C8 amended: the installers perform no validation at all: a box with
min above max and a negative maximum distance are both accepted and
install their constraint, producing silently wrong geometry — an empty
box makes every pose out of bounds, and a negative maximum distance makes
every pose with nonnegative engine distance out of bounds. -/
theorem installers_accept_malformed (xmin ymin xmax ymax zmax d z : ℚ)
    (e : Entity) (s : GuardState) (hbox : xmax < xmin) (hd : d < 0) :
    (limitBBOX xmin ymin xmax ymax zmax s).cameraMovementListener.isSome =
      true ∧
    (limitEntity e d z s).cameraMovementListener.isSome = true ∧
    (∀ eng cam, testCameraBBOX eng cam xmin ymin xmax ymax zmax = true) ∧
    (∀ eng cam,
      0 ≤ eng.distance (eng.scaleToGeodeticSurface cam.position)
          (eng.scaleToGeodeticSurface (entityPositionOf e)) →
      testCameraDistanceFromEntity eng cam e d z = true) := by
  refine ⟨?_, ?_, ?_, ?_⟩
  · simp [limitBBOX, limitCamera]
  · simp [limitEntity, limitCamera]
  · intro eng cam
    cases h : testCameraBBOX eng cam xmin ymin xmax ymax zmax with
    | true => rfl
    | false =>
        rw [testCameraBBOX_eq_false_iff] at h
        exact absurd (le_trans h.1 h.2.1) (not_le.mpr hbox)
  · intro eng cam h0
    simp only [testCameraDistanceFromEntity, Bool.or_eq_true, decide_eq_true_eq]
    exact Or.inl (lt_of_lt_of_le hd h0)

/-- Witness for the amended C8 with box [1,0]x[0,1] (empty) and maximum
distance -1. -/
theorem installers_accept_malformed_witness :
    (0 : ℚ) < 1 ∧ (-1 : ℚ) < 0 ∧
    testCameraBBOX engTest camTest 1 0 0 1 100 = true ∧
    testCameraDistanceFromEntity engTest camTest (.plain ⟨0, 0, 0⟩)
      (-1) 0 = true := by
  refine ⟨by norm_num, by norm_num, ?_, ?_⟩
  · exact (installers_accept_malformed 1 0 0 1 100 (-1) 0 (.plain ⟨0, 0, 0⟩)
      (init camTest) (by norm_num) (by norm_num)).2.2.1 engTest camTest
  · exact (installers_accept_malformed 1 0 0 1 100 (-1) 0 (.plain ⟨0, 0, 0⟩)
      (init camTest) (by norm_num) (by norm_num)).2.2.2 engTest camTest
      (by decide)

/-- C9: releasing is idempotent: a second release is a no-op, releasing
with no active subscription leaves the state untouched (no error is
possible, the operation is total), and a release never dispatches an
event. -/
theorem disable_idempotent (s : GuardState) :
    disableCameraMovementLimitation (disableCameraMovementLimitation s) =
      disableCameraMovementLimitation s ∧
    (s.cameraMovementListener = none →
      disableCameraMovementLimitation s = s) ∧
    (disableCameraMovementLimitation s).events = s.events := by
  refine ⟨?_, ?_, (disable_preserves_core s).2.2.2.1⟩
  · cases h : s.cameraMovementListener with
    | none => simp [disableCameraMovementLimitation, h]
    | some i => simp [disableCameraMovementLimitation, h]
  · intro h
    simp [disableCameraMovementLimitation, h]

/-- Witness for C9 at a state with no active subscription and at a state
with one. -/
theorem disable_idempotent_witness :
    disableCameraMovementLimitation (init camTest) = init camTest ∧
    disableCameraMovementLimitation (disableCameraMovementLimitation st1) =
      disableCameraMovementLimitation st1 := by
  exact ⟨(disable_idempotent (init camTest)).2.1 rfl, (disable_idempotent st1).1⟩

end CameraBounds
